import Mathlib

/-!
Verification of `src/convert_to_pdf.py`: a script that launches a headless
browser, loads a local HTML file, and exports it to PDF.

The script is a straight-line `async` function awaiting five external
operations in order (launch, newPage, goto, pdf, close), driven by
`asyncio.get_event_loop().run_until_complete(...)` at module level.  We embed
it shallowly: the outcome of each external operation (and the state of the
filesystem) is packaged in an `Env` record, and the function becomes a pure
map from `Env` to a `RunResult` holding the final outcome, the sequence of
external calls issued (the trace), and whether the PDF was written.  Python
exception propagation through the straight-line `await` chain becomes the
early-return structure of the nested conditionals: once an operation fails,
no later call appears in the trace.
-/

/-- Margin record passed to `page.pdf` (lines 18-23 of the source). -/
structure PdfMargin where
  top : String
  right : String
  bottom : String
  left : String
deriving DecidableEq

/-- Options dictionary passed to `page.pdf` (lines 14-24 of the source). -/
structure PdfOptions where
  path : String
  format : String
  printBackground : Bool
  margin : PdfMargin
deriving DecidableEq

/-- The external calls the script issues, in the order awaited.  `goto`
records the URL and the `waitUntil` wait condition it was invoked with
(the string `networkidle0` names pyppeteer's condition of at most 0
in-flight network connections sustained for 500ms). -/
inductive Event where
  | launch : Event
  | newPage : Event
  | goto : String → String → Event
  | pdf : PdfOptions → Event
  | close : Event
deriving DecidableEq

/-- Failure taxonomy of the spec (section 7), plus failures of `newPage` and
`close` which the spec does not name.  `PathResolutionError` is included from
the spec taxonomy so that its unreachability in the code can be stated. -/
inductive ConvError where
  | PathResolutionError : ConvError
  | BrowserLaunchError : ConvError
  | NewPageError : ConvError
  | NavigationError : ConvError
  | ExportError : ConvError
  | CloseError : ConvError
deriving DecidableEq

/-- Result of one run: normal completion or a propagated exception. -/
inductive Outcome where
  | ok : Outcome
  | error : ConvError → Outcome
deriving DecidableEq

/-- What a single invocation yields in the embedding: the final outcome, the
trace of external calls issued (a call that raises still appears: it was
made), and whether the output PDF file was written. -/
structure RunResult where
  outcome : Outcome
  trace : List Event
  pdfWritten : Bool
deriving DecidableEq

/-- External environment of one run: the current working directory and, for
each external operation, whether it succeeds.  `fileExists` states whether
the input HTML file exists at its resolved path; a missing file makes the
navigation fail (pyppeteer raises a page error for the file URL).
`resolveOk` models the spec's step-1 resolution condition ("the path cannot
be resolved, e.g. permission denied"): the spec contract fails with
`PathResolutionError` when it is false, while the code's resolution is pure
string computation and never consults it. -/
structure Env where
  cwd : String
  resolveOk : Bool
  fileExists : Bool
  launchOk : Bool
  newPageOk : Bool
  navigateOk : Bool
  pdfOk : Bool
  closeOk : Bool
deriving DecidableEq

/-- Whether a POSIX path string is absolute: it begins with a slash. -/
def strIsAbs (p : String) : Bool :=
  match p.data with
  | [] => false
  | c :: _ => c == '/'

/-- Model of Python `os.path.abspath` (line 10 of the source): an absolute
path is returned unchanged, a relative one is joined to the working
directory.  (The real function also normalizes `.`/`..` components; the
script only ever resolves the plain relative name `levenshtein.html`, for
which joining to a normalized absolute cwd is exact.) -/
def abspath (cwd p : String) : String :=
  if strIsAbs p then p else cwd ++ "/" ++ p

/-- Line 11 of the source: the f-string building the navigation target by
plain concatenation, with no percent-encoding of the path. -/
def file_url (htmlPath : String) : String :=
  "file://" ++ htmlPath

/-- The options dictionary of the `page.pdf` call, lines 14-24 of the source:
fixed output path, A4 format, backgrounds printed, 1cm margin on each side. -/
def pdfOptions : PdfOptions :=
  { path := "notebook.pdf"
    format := "A4"
    printBackground := true
    margin := { top := "1cm", right := "1cm", bottom := "1cm", left := "1cm" } }

/-- Embedding of `convert_notebook_to_pdf` (lines 5-26 of the source).  The
five awaited calls are issued in program order; an exception from any of
them propagates at once, so the conditional chain stops at the first failing
operation and no later event is emitted.  There is no try/finally in the
source: `browser.close()` (line 26) is only reached if every earlier await
succeeded. -/
def convert_notebook_to_pdf (env : Env) : RunResult :=
  if env.launchOk = false then
    { outcome := Outcome.error ConvError.BrowserLaunchError
      trace := [Event.launch]
      pdfWritten := false }
  else if env.newPageOk = false then
    { outcome := Outcome.error ConvError.NewPageError
      trace := [Event.launch, Event.newPage]
      pdfWritten := false }
  else
    let htmlPath := abspath env.cwd ("levenshtein.html")
    let url := file_url htmlPath
    if (env.fileExists && env.navigateOk) = false then
      { outcome := Outcome.error ConvError.NavigationError
        trace := [Event.launch, Event.newPage, Event.goto url ("networkidle0")]
        pdfWritten := false }
    else if env.pdfOk = false then
      { outcome := Outcome.error ConvError.ExportError
        trace := [Event.launch, Event.newPage, Event.goto url ("networkidle0"),
                  Event.pdf pdfOptions]
        pdfWritten := false }
    else if env.closeOk = false then
      { outcome := Outcome.error ConvError.CloseError
        trace := [Event.launch, Event.newPage, Event.goto url ("networkidle0"),
                  Event.pdf pdfOptions, Event.close]
        pdfWritten := true }
    else
      { outcome := Outcome.ok
        trace := [Event.launch, Event.newPage, Event.goto url ("networkidle0"),
                  Event.pdf pdfOptions, Event.close]
        pdfWritten := true }

/-- The converter contract as the spec's words state it (section 4.1), with
the four caller-supplied parameters `inputHtmlPath`, `outputPdfPath`,
`pageFormat` and a margins record.  Step 1 fails with `PathResolutionError`
before any browser call when the path cannot be resolved; steps 2-5 fail
with their named errors; and per step 6 the release is guaranteed on every
exit path once the browser was acquired, so every trace past a successful
launch ends with `close`.  The spec's taxonomy names no failure for the
release itself, so the release is modelled as succeeding. -/
def spec_convert (inputHtmlPath outputPdfPath pageFormat : String)
    (margins : PdfMargin) (env : Env) : RunResult :=
  if env.resolveOk = false then
    { outcome := Outcome.error ConvError.PathResolutionError
      trace := []
      pdfWritten := false }
  else if env.launchOk = false then
    { outcome := Outcome.error ConvError.BrowserLaunchError
      trace := [Event.launch]
      pdfWritten := false }
  else if env.newPageOk = false then
    { outcome := Outcome.error ConvError.NewPageError
      trace := [Event.launch, Event.newPage, Event.close]
      pdfWritten := false }
  else
    let htmlPath := abspath env.cwd inputHtmlPath
    let url := file_url htmlPath
    if (env.fileExists && env.navigateOk) = false then
      { outcome := Outcome.error ConvError.NavigationError
        trace := [Event.launch, Event.newPage, Event.goto url ("networkidle0"),
                  Event.close]
        pdfWritten := false }
    else if env.pdfOk = false then
      { outcome := Outcome.error ConvError.ExportError
        trace := [Event.launch, Event.newPage, Event.goto url ("networkidle0"),
                  Event.pdf { path := outputPdfPath, format := pageFormat,
                              printBackground := true, margin := margins },
                  Event.close]
        pdfWritten := false }
    else
      { outcome := Outcome.ok
        trace := [Event.launch, Event.newPage, Event.goto url ("networkidle0"),
                  Event.pdf { path := outputPdfPath, format := pageFormat,
                              printBackground := true, margin := margins },
                  Event.close]
        pdfWritten := true }

/-- Number of `browser.close()` calls issued during a run. -/
def closeCalls (env : Env) : Nat :=
  ((convert_notebook_to_pdf env).trace.filter
    (fun e => match e with | Event.close => true | _ => false)).length

/-- Embedding of line 28: `run_until_complete` re-raises any exception of the
coroutine; CPython then terminates with a nonzero exit status (1) on an
uncaught exception and with 0 on normal completion. -/
def main_exit (env : Env) : Nat :=
  match (convert_notebook_to_pdf env).outcome with
  | Outcome.ok => 0
  | Outcome.error _ => 1

/-- Characters of a URL up to the first `#` (fragment delimiter) or `?`
(query delimiter), per generic URL syntax. -/
def untilDelim : List Char → List Char
  | [] => []
  | c :: cs => if c == '#' || c == '?' then [] else c :: untilDelim cs

/-- The path component a file-scheme URL denotes: the text after the
7-character `file://` prefix, up to the first `#` or `?`. -/
def file_url_path (url : String) : String :=
  String.mk (untilDelim (url.data.drop 7))

/-- Whether a string contains a given character. -/
def strContains (s : String) (c : Char) : Bool :=
  s.data.contains c

/-- Environment in which every external operation succeeds. -/
def envAllOk : Env :=
  { cwd := "/w", resolveOk := true, fileExists := true, launchOk := true,
    newPageOk := true, navigateOk := true, pdfOk := true, closeOk := true }

/-- Environment in which the input file is missing and everything else
succeeds: navigation raises, the later awaits never run. -/
def envNoFile : Env :=
  { cwd := "/w", resolveOk := true, fileExists := false, launchOk := true,
    newPageOk := true, navigateOk := true, pdfOk := true, closeOk := true }

/-- Environment in which everything up to the export succeeds but the final
`browser.close()` raises. -/
def envCloseFail : Env :=
  { cwd := "/w", resolveOk := true, fileExists := true, launchOk := true,
    newPageOk := true, navigateOk := true, pdfOk := true, closeOk := false }

/-- Helper: the only `page.pdf` options dictionary ever passed is the fixed
literal of lines 14-24. -/
theorem pdf_event_eq (env : Env) (opts : PdfOptions)
    (h : Event.pdf opts ∈ (convert_notebook_to_pdf env).trace) : opts = pdfOptions := by
  obtain ⟨cwd, r, f, l, n, nav, p, c⟩ := env
  cases l <;> cases n <;> cases f <;> cases nav <;> cases p <;> cases c <;>
    simp [convert_notebook_to_pdf] at h <;> exact h

/-- Helper: the only `page.goto` call ever issued targets the file URL of the
resolved input path, with the `networkidle0` wait condition (line 12). -/
theorem goto_event_eq (env : Env) (url w : String)
    (h : Event.goto url w ∈ (convert_notebook_to_pdf env).trace) :
    url = file_url (abspath env.cwd ("levenshtein.html")) ∧ w = "networkidle0" := by
  obtain ⟨cwd, r, f, l, n, nav, p, c⟩ := env
  cases l <;> cases n <;> cases f <;> cases nav <;> cases p <;> cases c <;>
    simp [convert_notebook_to_pdf] at h <;> exact h

/-- C1 counterexample: with the browser successfully acquired and the input
file missing, `page.goto` raises and `browser.close()` is never called — the
handle is released zero times, not exactly once.  There is no try/finally in
the source. -/
theorem browser_not_closed_on_navigation_failure :
    envNoFile.launchOk = true ∧
    (convert_notebook_to_pdf envNoFile).outcome = Outcome.error ConvError.NavigationError ∧
    closeCalls envNoFile = 0 := by decide

/-- C1 (amended): `browser.close()` is called exactly once when launch,
newPage, navigation and PDF export all succeed, and is never called when any
of them fails — on error exit paths the acquired browser handle is not
released. -/
theorem close_called_iff_all_prior_steps_ok (env : Env) :
    closeCalls env =
      (if env.launchOk && env.newPageOk && env.fileExists && env.navigateOk && env.pdfOk
        then 1 else 0) := by
  obtain ⟨cwd, r, f, l, n, nav, p, c⟩ := env
  cases l <;> cases n <;> cases f <;> cases nav <;> cases p <;> cases c <;> rfl

/-- C2 counterexample: invoking the spec contract with caller-supplied
arguments other than the hardcoded ones yields a different call sequence than
the code, which ignores any such parameters — the code navigates to
`levenshtein.html` and exports to `notebook.pdf` regardless. -/
theorem code_ignores_contract_arguments :
    (spec_convert ("doc.html") ("out.pdf") ("Letter")
        { top := "2cm", right := "2cm", bottom := "2cm", left := "2cm" } envAllOk).trace ≠
      (convert_notebook_to_pdf envAllOk).trace := by decide

/-- C2 (amended): the converter takes no caller-supplied parameters — the
contract's four arguments are hardcoded constants.  In every run, every
navigation targets the fixed input path `levenshtein.html` resolved in the
working directory, and every export request carries exactly the fixed output
path `notebook.pdf`, page format `A4`, and 1cm margins on all four sides;
success or failure is determined by the external environment alone. -/
theorem converter_arguments_hardcoded (env : Env) :
    (∀ url w, Event.goto url w ∈ (convert_notebook_to_pdf env).trace →
      url = file_url (abspath env.cwd ("levenshtein.html"))) ∧
    (∀ opts, Event.pdf opts ∈ (convert_notebook_to_pdf env).trace →
      opts = { path := "notebook.pdf", format := "A4", printBackground := true,
               margin := { top := "1cm", right := "1cm", bottom := "1cm", left := "1cm" } }) :=
  ⟨fun url w h => (goto_event_eq env url w h).1,
   fun opts h => pdf_event_eq env opts h⟩

/-- C2 amended-claim witness: in the all-ok run the navigation and export
events occur and carry exactly the fixed argument values. -/
theorem converter_arguments_hardcoded_witness :
    Event.goto ("file:///w/levenshtein.html") ("networkidle0") ∈
      (convert_notebook_to_pdf envAllOk).trace ∧
    "file:///w/levenshtein.html" = file_url (abspath envAllOk.cwd ("levenshtein.html")) ∧
    Event.pdf pdfOptions ∈ (convert_notebook_to_pdf envAllOk).trace ∧
    pdfOptions = { path := "notebook.pdf", format := "A4", printBackground := true,
                   margin := { top := "1cm", right := "1cm", bottom := "1cm", left := "1cm" } } :=
  ⟨by decide,
   (converter_arguments_hardcoded envAllOk).1 ("file:///w/levenshtein.html") ("networkidle0")
     (by decide),
   by decide,
   (converter_arguments_hardcoded envAllOk).2 pdfOptions (by decide)⟩

/-- C3: every PDF export request the converter issues uses exactly the fixed
configuration: destination path `notebook.pdf`, page format A4, background
graphics enabled, and a 1cm margin on each of the four sides — independent of
the environment (and hence of the input document). -/
theorem pdf_export_config_fixed (env : Env) (opts : PdfOptions)
    (h : Event.pdf opts ∈ (convert_notebook_to_pdf env).trace) :
    opts.path = "notebook.pdf" ∧ opts.format = "A4" ∧ opts.printBackground = true ∧
    opts.margin = { top := "1cm", right := "1cm", bottom := "1cm", left := "1cm" } := by
  rw [pdf_event_eq env opts h]
  exact ⟨rfl, rfl, rfl, rfl⟩

/-- C3 witness: the fixed options record itself is exported in the all-ok
run and satisfies the stated configuration. -/
theorem pdf_export_config_fixed_witness :
    pdfOptions.path = "notebook.pdf" ∧ pdfOptions.format = "A4" ∧
    pdfOptions.printBackground = true ∧
    pdfOptions.margin = { top := "1cm", right := "1cm", bottom := "1cm", left := "1cm" } :=
  pdf_export_config_fixed envAllOk pdfOptions (by decide)

/-- C4: whenever the input HTML file does not exist, the run writes no output
PDF and does not complete normally; and if the browser was launched and the
page opened (the steps before navigation), the failure is precisely the
navigation error raised for the missing file. -/
theorem missing_input_fails_without_output (env : Env) (h : env.fileExists = false) :
    (convert_notebook_to_pdf env).pdfWritten = false ∧
    (convert_notebook_to_pdf env).outcome ≠ Outcome.ok ∧
    (env.launchOk = true → env.newPageOk = true →
      (convert_notebook_to_pdf env).outcome = Outcome.error ConvError.NavigationError) := by
  obtain ⟨cwd, r, f, l, n, nav, p, c⟩ := env
  cases f
  · cases l <;> cases n <;> cases nav <;> cases p <;> cases c <;>
      simp [convert_notebook_to_pdf]
  · simp at h

/-- C4 witness: in the concrete environment where only the input file is
missing, the run produces no PDF and fails with the navigation error. -/
theorem missing_input_fails_without_output_witness :
    envNoFile.fileExists = false ∧
    ((convert_notebook_to_pdf envNoFile).pdfWritten = false ∧
     (convert_notebook_to_pdf envNoFile).outcome ≠ Outcome.ok ∧
     (envNoFile.launchOk = true → envNoFile.newPageOk = true →
       (convert_notebook_to_pdf envNoFile).outcome = Outcome.error ConvError.NavigationError)) :=
  ⟨rfl, missing_input_fails_without_output envNoFile rfl⟩

/-- C5: whenever the PDF export call appears in a run's call sequence, it is
the fourth call, strictly after a navigation issued with the `networkidle0`
wait condition, and that navigation completed without raising (the file
existed and the load succeeded).  Sequencing is inherent to the straight-line
await chain: an export is never issued before its navigation returns. -/
theorem export_begins_only_after_navigation (env : Env)
    (h : Event.pdf pdfOptions ∈ (convert_notebook_to_pdf env).trace) :
    (convert_notebook_to_pdf env).trace.take 4 =
      [Event.launch, Event.newPage,
       Event.goto (file_url (abspath env.cwd ("levenshtein.html"))) ("networkidle0"),
       Event.pdf pdfOptions] ∧
    env.fileExists = true ∧ env.navigateOk = true := by
  obtain ⟨cwd, r, f, l, n, nav, p, c⟩ := env
  cases l <;> cases n <;> cases f <;> cases nav <;> cases p <;> cases c <;>
    simp [convert_notebook_to_pdf] at h ⊢

/-- C5 witness: in the all-ok run the export call is preceded by exactly the
launch, page-open and networkidle0 navigation calls. -/
theorem export_begins_only_after_navigation_witness :
    (convert_notebook_to_pdf envAllOk).trace.take 4 =
      [Event.launch, Event.newPage,
       Event.goto (file_url (abspath envAllOk.cwd ("levenshtein.html"))) ("networkidle0"),
       Event.pdf pdfOptions] ∧
    envAllOk.fileExists = true ∧ envAllOk.navigateOk = true :=
  export_begins_only_after_navigation envAllOk (by decide)

/-- C6: every navigation the converter issues targets exactly the string
`file://` concatenated with the absolute resolution of the input path against
the working directory. -/
theorem goto_url_is_file_plus_abspath (env : Env) (url w : String)
    (h : Event.goto url w ∈ (convert_notebook_to_pdf env).trace) :
    url = "file://" ++ abspath env.cwd ("levenshtein.html") :=
  (goto_event_eq env url w h).1

/-- C6 witness: with working directory `/w`, the navigated URL is the
concatenation of `file://` and the resolved absolute path. -/
theorem goto_url_is_file_plus_abspath_witness :
    "file:///w/levenshtein.html" = "file://" ++ abspath envAllOk.cwd ("levenshtein.html") :=
  goto_url_is_file_plus_abspath envAllOk ("file:///w/levenshtein.html") ("networkidle0")
    (by decide)

/-- C7: the call sequence of every run is an initial segment of the canonical
order launch, open page, navigate, export PDF, close browser — each call is
issued only after all earlier calls returned, and a failing call ends the
sequence — and a run that completes normally performs all five in that
order. -/
theorem steps_run_in_fixed_order (env : Env) :
    (convert_notebook_to_pdf env).trace =
      [Event.launch, Event.newPage,
       Event.goto (file_url (abspath env.cwd ("levenshtein.html"))) ("networkidle0"),
       Event.pdf pdfOptions, Event.close].take (convert_notebook_to_pdf env).trace.length ∧
    ((convert_notebook_to_pdf env).outcome = Outcome.ok →
      (convert_notebook_to_pdf env).trace =
        [Event.launch, Event.newPage,
         Event.goto (file_url (abspath env.cwd ("levenshtein.html"))) ("networkidle0"),
         Event.pdf pdfOptions, Event.close]) := by
  obtain ⟨cwd, r, f, l, n, nav, p, c⟩ := env
  cases l <;> cases n <;> cases f <;> cases nav <;> cases p <;> cases c <;>
    exact ⟨rfl, by simp [convert_notebook_to_pdf]⟩

/-- C7 witness: the all-ok run issues exactly the five calls in order. -/
theorem steps_run_in_fixed_order_witness :
    (convert_notebook_to_pdf envAllOk).trace =
      [Event.launch, Event.newPage,
       Event.goto (file_url (abspath envAllOk.cwd ("levenshtein.html"))) ("networkidle0"),
       Event.pdf pdfOptions, Event.close].take (convert_notebook_to_pdf envAllOk).trace.length ∧
    ((convert_notebook_to_pdf envAllOk).outcome = Outcome.ok →
      (convert_notebook_to_pdf envAllOk).trace =
        [Event.launch, Event.newPage,
         Event.goto (file_url (abspath envAllOk.cwd ("levenshtein.html"))) ("networkidle0"),
         Event.pdf pdfOptions, Event.close]) :=
  steps_run_in_fixed_order envAllOk

/-- C8 counterexample: if `browser.close()` raises after a successful export,
the PDF was written and yet the process exit status is non-zero — so exit
status 0 does not hold exactly when the PDF was written. -/
theorem pdf_written_but_nonzero_exit :
    (convert_notebook_to_pdf envCloseFail).pdfWritten = true ∧
    main_exit envCloseFail ≠ 0 := by decide

/-- C8 (amended): no failure is recovered locally — the process exits 0 iff
the whole run, the browser close included, completed normally; exit 0 implies
the PDF was written; and any failing run exits with a non-zero status. -/
theorem exit_zero_iff_run_ok (env : Env) :
    ((main_exit env = 0) ↔ (convert_notebook_to_pdf env).outcome = Outcome.ok) ∧
    (main_exit env = 0 → (convert_notebook_to_pdf env).pdfWritten = true) ∧
    ((convert_notebook_to_pdf env).outcome ≠ Outcome.ok → main_exit env ≠ 0) := by
  obtain ⟨cwd, r, f, l, n, nav, p, c⟩ := env
  cases l <;> cases n <;> cases f <;> cases nav <;> cases p <;> cases c <;>
    simp [convert_notebook_to_pdf, main_exit]

/-- C8 amended-claim witness: instantiation at the close-failure run. -/
theorem exit_zero_iff_run_ok_witness :
    ((main_exit envCloseFail = 0) ↔ (convert_notebook_to_pdf envCloseFail).outcome = Outcome.ok) ∧
    (main_exit envCloseFail = 0 → (convert_notebook_to_pdf envCloseFail).pdfWritten = true) ∧
    ((convert_notebook_to_pdf envCloseFail).outcome ≠ Outcome.ok → main_exit envCloseFail ≠ 0) :=
  exit_zero_iff_run_ok envCloseFail

/-- C9: path resolution is total in this code — no run ever fails with the
spec's PathResolutionError — and a missing input file is only detected at the
navigation step: once launch and page-open succeed, the missing file surfaces
as the navigation error. -/
theorem path_resolution_never_fails (env : Env) :
    (convert_notebook_to_pdf env).outcome ≠ Outcome.error ConvError.PathResolutionError ∧
    (env.fileExists = false → env.launchOk = true → env.newPageOk = true →
      (convert_notebook_to_pdf env).outcome = Outcome.error ConvError.NavigationError) := by
  obtain ⟨cwd, r, f, l, n, nav, p, c⟩ := env
  cases l <;> cases n <;> cases f <;> cases nav <;> cases p <;> cases c <;>
    simp [convert_notebook_to_pdf]

/-- C9 witness: instantiation at the missing-file run — no resolution error,
and the failure is the navigation error. -/
theorem path_resolution_never_fails_witness :
    (convert_notebook_to_pdf envNoFile).outcome ≠ Outcome.error ConvError.PathResolutionError ∧
    (envNoFile.fileExists = false → envNoFile.launchOk = true → envNoFile.newPageOk = true →
      (convert_notebook_to_pdf envNoFile).outcome = Outcome.error ConvError.NavigationError) :=
  path_resolution_never_fails envNoFile

/-- C10: the file URL is built by plain concatenation with no
percent-encoding: in a working directory whose absolute path contains `#`,
the run navigates to a URL containing the raw `#`, and that URL, read as a
file-scheme URL (path up to the fragment delimiter), does not denote the
resolved input path. -/
theorem file_url_unescaped_misdenotes_path :
    Event.goto ("file:///tmp/a#b/levenshtein.html") ("networkidle0") ∈
      (convert_notebook_to_pdf { envAllOk with cwd := "/tmp/a#b" }).trace ∧
    strContains (file_url (abspath ("/tmp/a#b") ("levenshtein.html"))) '#' = true ∧
    file_url_path (file_url (abspath ("/tmp/a#b") ("levenshtein.html"))) ≠
      abspath ("/tmp/a#b") ("levenshtein.html") := by decide
